import Mathlib

/-!
Verification of the lead-generation pipeline in `lead-gen-ai/server.py`.

The development shallowly embeds the pieces of `server.py` that the
specification's claims are about: the pydantic `Lead` model and its two
field validators, the response-extraction loop over the collected group-chat
messages (including its JSON pre-filter and `json.loads` decoding), the
composite-result assembly with per-role placeholders, the ledger-row append,
the success response, and the outermost exception handler.  Python values
arising from `json.loads` are modelled by the inductive `JsonVal`; Python
dicts are modelled by insertion-ordered association lists with
first-occurrence key update, matching CPython dict semantics.
-/

/-- Model of a Python value decoded by `json.loads` (and of the dict literals
built by `server.py`).  Numbers keep their source lexeme: no claim depends on
float arithmetic, only on truthiness and on values being passed through. -/
inductive JsonVal where
  | null : JsonVal
  | bool : Bool → JsonVal
  | num : String → JsonVal
  | str : String → JsonVal
  | arr : List JsonVal → JsonVal
  | obj : List (String × JsonVal) → JsonVal
deriving Repr

/-- Python `dict` lookup `d.get(k)` / `d[k]` on an insertion-ordered
association list (the keys in lists built by `pyDictSet` are distinct, so the
first match is the only match). -/
def pyDictGet (d : List (String × JsonVal)) (k : String) : Option JsonVal :=
  match d with
  | [] => none
  | (k', v) :: rest => if k = k' then some v else pyDictGet rest k

/-- Python `dict` assignment `d[k] = v`: overwrite the value at the first
occurrence of `k` keeping its position, or append a new entry at the end.
This is CPython's insertion-order-preserving dict update. -/
def pyDictSet (d : List (String × JsonVal)) (k : String) (v : JsonVal) :
    List (String × JsonVal) :=
  match d with
  | [] => [(k, v)]
  | (k', v') :: rest =>
      if k = k' then (k', v) :: rest else (k', v') :: pyDictSet rest k v

/-- Number of entries of `d` carrying key `k`. -/
def keyCount (d : List (String × JsonVal)) (k : String) : Nat :=
  (d.filter (fun p => p.1 = k)).length

/-- Characters stripped by Python `str.strip()`: the ASCII whitespace
characters.  (Python also strips some non-ASCII Unicode spaces; no claim
involves those.) -/
def pyIsSpace (c : Char) : Bool :=
  c = ' ' || c = '\t' || c = '\n' || c = '\r' || c = '\x0b' || c = '\x0c'

/-- Python `str.strip()`. -/
def pyStrip (s : String) : String :=
  ⟨((s.data.dropWhile pyIsSpace).reverse.dropWhile pyIsSpace).reverse⟩

/-- JSON insignificant whitespace (RFC 8259 / CPython `json`): space, tab,
line feed, carriage return.  Note this is a strict subset of `pyIsSpace`. -/
def jsonWs (c : Char) : Bool :=
  c = ' ' || c = '\t' || c = '\n' || c = '\r'

/-- Skip JSON whitespace. -/
def skipWs (cs : List Char) : List Char :=
  cs.dropWhile jsonWs

/-- Value of a hexadecimal digit, for `\uXXXX` escapes. -/
def hexVal (c : Char) : Option Nat :=
  if 48 ≤ c.toNat ∧ c.toNat ≤ 57 then some (c.toNat - 48)
  else if 97 ≤ c.toNat ∧ c.toNat ≤ 102 then some (c.toNat - 87)
  else if 65 ≤ c.toNat ∧ c.toNat ≤ 70 then some (c.toNat - 55)
  else none

/-- Body of a JSON string literal, after the opening quote, in strict mode as
CPython's `json.loads` uses it: unescaped control characters (below U+0020)
are rejected; the eight short escapes and `\uXXXX` are recognised; surrogate
`\u` pairs are combined.  (CPython keeps a lone surrogate escape as a lone
surrogate code unit, which a Lean `Char` cannot carry; it is represented by
U+FFFD here.  No claim involves lone surrogates.)  `acc` holds the decoded
characters in reverse.  Fuel-indexed (each step consumes at least one input
character, so `length + 1` fuel always suffices). -/
def parseStrBody (fuel : Nat) (acc : List Char) (cs : List Char) :
    Option (String × List Char) :=
  match fuel with
  | 0 => none
  | fuel + 1 =>
  match cs with
  | [] => none
  | '"' :: rest => some (⟨acc.reverse⟩, rest)
  | '\\' :: rest =>
      match rest with
      | [] => none
      | e :: rest2 =>
          if e = '"' then parseStrBody fuel ('"' :: acc) rest2
          else if e = '\\' then parseStrBody fuel ('\\' :: acc) rest2
          else if e = '/' then parseStrBody fuel ('/' :: acc) rest2
          else if e = 'b' then parseStrBody fuel ('\x08' :: acc) rest2
          else if e = 'f' then parseStrBody fuel ('\x0c' :: acc) rest2
          else if e = 'n' then parseStrBody fuel ('\n' :: acc) rest2
          else if e = 'r' then parseStrBody fuel ('\r' :: acc) rest2
          else if e = 't' then parseStrBody fuel ('\t' :: acc) rest2
          else if e = 'u' then
            match rest2 with
            | a :: b :: c :: d :: rest3 =>
                match hexVal a, hexVal b, hexVal c, hexVal d with
                | some ha, some hb, some hc, some hd =>
                    let n := ((ha * 16 + hb) * 16 + hc) * 16 + hd
                    if 0xD800 ≤ n ∧ n ≤ 0xDBFF then
                      match rest3 with
                      | '\\' :: 'u' :: a2 :: b2 :: c2 :: d2 :: rest4 =>
                          match hexVal a2, hexVal b2, hexVal c2, hexVal d2 with
                          | some ha2, some hb2, some hc2, some hd2 =>
                              let n2 := ((ha2 * 16 + hb2) * 16 + hc2) * 16 + hd2
                              if 0xDC00 ≤ n2 ∧ n2 ≤ 0xDFFF then
                                parseStrBody fuel
                                  (Char.ofNat
                                    (0x10000 + (n - 0xD800) * 0x400 + (n2 - 0xDC00)) :: acc)
                                  rest4
                              else parseStrBody fuel (Char.ofNat 0xFFFD :: acc) rest3
                          | _, _, _, _ => none
                      | _ => parseStrBody fuel (Char.ofNat 0xFFFD :: acc) rest3
                    else if 0xDC00 ≤ n ∧ n ≤ 0xDFFF then
                      parseStrBody fuel (Char.ofNat 0xFFFD :: acc) rest3
                    else parseStrBody fuel (Char.ofNat n :: acc) rest3
                | _, _, _, _ => none
            | _ => none
          else none
  | c :: rest =>
      if c.toNat < 0x20 then none else parseStrBody fuel (c :: acc) rest

/-- A JSON string literal body, starting just after the opening quote. -/
def parseStr (cs : List Char) : Option (String × List Char) :=
  parseStrBody (cs.length + 1) [] cs

/-- Leading run of ASCII digits and the remainder. -/
def spanDigits (cs : List Char) : List Char × List Char :=
  (cs.takeWhile Char.isDigit, cs.dropWhile Char.isDigit)

/-- Integer part of a JSON number: `0`, or a nonzero digit followed by
digits (leading zeros are not accepted, as in CPython's `NUMBER_RE`). -/
def parseIntPart (cs : List Char) : Option (List Char × List Char) :=
  match cs with
  | [] => none
  | c :: rest =>
      if c = '0' then some (['0'], rest)
      else if c.isDigit then
        let (ds, r) := spanDigits rest
        some (c :: ds, r)
      else none

/-- Optional fraction part `.digits`; returns `([], cs)` when absent. -/
def parseFracPart (cs : List Char) : List Char × List Char :=
  match cs with
  | '.' :: rest =>
      let (ds, r) := spanDigits rest
      if ds.isEmpty then ([], cs) else ('.' :: ds, r)
  | _ => ([], cs)

/-- Optional exponent part `[eE][+-]?digits`; returns `([], cs)` when
absent. -/
def parseExpPart (cs : List Char) : List Char × List Char :=
  match cs with
  | c :: rest =>
      if c = 'e' || c = 'E' then
        match rest with
        | s :: rest2 =>
            if s = '+' || s = '-' then
              let (ds, r) := spanDigits rest2
              if ds.isEmpty then ([], cs) else (c :: s :: ds, r)
            else
              let (ds, r) := spanDigits rest
              if ds.isEmpty then ([], cs) else (c :: ds, r)
        | [] => ([], cs)
      else ([], cs)
  | [] => ([], cs)

/-- A JSON number, per CPython's `NUMBER_RE`; the matched lexeme is kept. -/
def parseNumLit (cs : List Char) : Option (JsonVal × List Char) :=
  let (sgn, cs1) : List Char × List Char :=
    match cs with
    | '-' :: r => (['-'], r)
    | _ => ([], cs)
  match parseIntPart cs1 with
  | none => none
  | some (ip, cs2) =>
      let (fp, cs3) := parseFracPart cs2
      let (ep, cs4) := parseExpPart cs3
      some (JsonVal.num ⟨sgn ++ ip ++ fp ++ ep⟩, cs4)

mutual

/-- One JSON value, as CPython's `json.loads` scanner accepts it (including
the non-standard constants `NaN`, `Infinity`, `-Infinity`).  Fuel-indexed to
make the recursion structural; every recursive call consumes input, so
`2 * length + 2` fuel always suffices. -/
def parseVal : Nat → List Char → Option (JsonVal × List Char)
  | 0, _ => none
  | fuel + 1, cs =>
      match cs with
      | '\x7b' :: rest =>
          match skipWs rest with
          | '\x7d' :: r2 => some (JsonVal.obj [], r2)
          | '"' :: r2 => parseMembers fuel r2 []
          | _ => none
      | '[' :: rest =>
          match skipWs rest with
          | ']' :: r2 => some (JsonVal.arr [], r2)
          | r1 => parseElems fuel r1 []
      | '"' :: rest =>
          match parseStr rest with
          | some (s, r) => some (JsonVal.str s, r)
          | none => none
      | 't' :: 'r' :: 'u' :: 'e' :: rest => some (JsonVal.bool true, rest)
      | 'f' :: 'a' :: 'l' :: 's' :: 'e' :: rest => some (JsonVal.bool false, rest)
      | 'n' :: 'u' :: 'l' :: 'l' :: rest => some (JsonVal.null, rest)
      | 'N' :: 'a' :: 'N' :: rest => some (JsonVal.num "NaN", rest)
      | 'I' :: 'n' :: 'f' :: 'i' :: 'n' :: 'i' :: 't' :: 'y' :: rest =>
          some (JsonVal.num "Infinity", rest)
      | '-' :: 'I' :: 'n' :: 'f' :: 'i' :: 'n' :: 'i' :: 't' :: 'y' :: rest =>
          some (JsonVal.num "-Infinity", rest)
      | c :: _ =>
          if c = '-' || c.isDigit then parseNumLit cs else none
      | [] => none

/-- Members of a JSON object, starting just after the opening quote of a key.
Duplicate keys collapse with the last value winning at the first key's
position, as a Python dict does. -/
def parseMembers (fuel : Nat) (cs : List Char) (acc : List (String × JsonVal)) :
    Option (JsonVal × List Char) :=
  match fuel with
  | 0 => none
  | fuel + 1 =>
      match parseStr cs with
      | none => none
      | some (k, r1) =>
          match skipWs r1 with
          | ':' :: r2 =>
              match parseVal fuel (skipWs r2) with
              | none => none
              | some (v, r3) =>
                  match skipWs r3 with
                  | ',' :: r4 =>
                      match skipWs r4 with
                      | '"' :: r5 => parseMembers fuel r5 (pyDictSet acc k v)
                      | _ => none
                  | '\x7d' :: r4 => some (JsonVal.obj (pyDictSet acc k v), r4)
                  | _ => none
          | _ => none

/-- Elements of a JSON array, starting at the first element. -/
def parseElems (fuel : Nat) (cs : List Char) (acc : List JsonVal) :
    Option (JsonVal × List Char) :=
  match fuel with
  | 0 => none
  | fuel + 1 =>
      match parseVal fuel cs with
      | none => none
      | some (v, r1) =>
          match skipWs r1 with
          | ',' :: r2 => parseElems fuel (skipWs r2) (acc ++ [v])
          | ']' :: r2 => some (JsonVal.arr (acc ++ [v]), r2)
          | _ => none

end

/-- Model of Python `json.loads` on a string: one JSON value surrounded by
JSON whitespace; anything left over is a `JSONDecodeError` ("Extra data"),
modelled as `Except.error ()`. -/
def pyJsonLoads (s : String) : Except Unit JsonVal :=
  match parseVal (2 * s.length + 2) (skipWs s.data) with
  | some (v, rest) => if (skipWs rest).isEmpty then Except.ok v else Except.error ()
  | none => Except.error ()

/-- Python truthiness of the mantissa of a number lexeme: the characters
before any exponent marker, ignoring sign and point, are all zero exactly
when the value is numerically zero (and `NaN`/`Infinity` are truthy). -/
def numLexemeIsZero (lex : String) : Bool :=
  (lex.data.takeWhile (fun c => !(c = 'e' || c = 'E'))).all
    (fun c => c = '0' || c = '-' || c = '.')

/-- Python truthiness (`if parsed_content:`) of a decoded JSON value:
`None`, `False`, zero, the empty string, the empty list and the empty dict
are falsy. -/
def pyTruthy (v : JsonVal) : Bool :=
  match v with
  | JsonVal.null => false
  | JsonVal.bool b => b
  | JsonVal.num lex => !numLexemeIsZero lex
  | JsonVal.str s => !s.data.isEmpty
  | JsonVal.arr xs => !xs.isEmpty
  | JsonVal.obj fs => !fs.isEmpty

/-!  json.dumps, as used for the ledger column and the `ai_analysis` field. -/

/-- Lowercase hexadecimal digit, as CPython prints `\uXXXX` escapes. -/
def hexDigitChar (n : Nat) : Char :=
  if n < 10 then Char.ofNat (48 + n) else Char.ofNat (87 + n)

/-- A `\uXXXX` escape for one UTF-16 code unit. -/
def u16Escape (n : Nat) : List Char :=
  ['\\', 'u', hexDigitChar (n / 4096 % 16), hexDigitChar (n / 256 % 16),
   hexDigitChar (n / 16 % 16), hexDigitChar (n % 16)]

/-- Escaping of one character by `json.dumps` with its default
`ensure_ascii=True`: printable ASCII passes through, `"` and `\` and the
short control escapes are used, every other character becomes `\uXXXX`
escapes (a surrogate pair outside the BMP). -/
def escapeJsonChar (c : Char) : List Char :=
  if c = '"' then ['\\', '"']
  else if c = '\\' then ['\\', '\\']
  else if c = '\n' then ['\\', 'n']
  else if c = '\r' then ['\\', 'r']
  else if c = '\t' then ['\\', 't']
  else if c = '\x08' then ['\\', 'b']
  else if c = '\x0c' then ['\\', 'f']
  else if c.toNat < 0x20 then u16Escape c.toNat
  else if c.toNat < 0x7f then [c]
  else if c.toNat < 0x10000 then u16Escape c.toNat
  else
    u16Escape (0xD800 + (c.toNat - 0x10000) / 0x400) ++
      u16Escape (0xDC00 + (c.toNat - 0x10000) % 0x400)

/-- A JSON string literal as `json.dumps` prints it. -/
def dumpStr (s : String) : String :=
  ⟨'"' :: (s.data.map escapeJsonChar).flatten ++ ['"']⟩

mutual

/-- Model of `json.dumps` on one value, with CPython's default separators
`", "` and `": "`.  A `num` prints its stored lexeme (CPython prints the
float's repr, which agrees on canonical integer lexemes; no claim compares
number output). -/
def dumpVal : JsonVal → String
  | JsonVal.null => "null"
  | JsonVal.bool true => "true"
  | JsonVal.bool false => "false"
  | JsonVal.num lex => lex
  | JsonVal.str s => dumpStr s
  | JsonVal.arr xs => "[" ++ dumpElems xs ++ "]"
  | JsonVal.obj fs => "\x7b" ++ dumpFields fs ++ "\x7d"

/-- Comma-separated array elements. -/
def dumpElems : List JsonVal → String
  | [] => ""
  | [x] => dumpVal x
  | x :: xs => dumpVal x ++ ", " ++ dumpElems xs

/-- Comma-separated `"key": value` members. -/
def dumpFields : List (String × JsonVal) → String
  | [] => ""
  | [(k, v)] => dumpStr k ++ ": " ++ dumpVal v
  | (k, v) :: fs => dumpStr k ++ ": " ++ dumpVal v ++ ", " ++ dumpFields fs

end

/-- Model of `json.dumps` applied to the `ai_analysis` dict. -/
def pyJsonDumps (fs : List (String × JsonVal)) : String :=
  dumpVal (JsonVal.obj fs)

/-!  The pydantic `Lead` model and its validators (`server.py`, lines
52–74). -/

/-- Model of Python `str.isdigit` on one character: true for the ASCII
digits and for the other Unicode digit characters.  The Unicode table is
represented by its most common decimal-digit blocks (Arabic-Indic, extended
Arabic-Indic, Devanagari, fullwidth) and the superscript digits; CPython
accepts further blocks, all of them outside ASCII, so on ASCII characters
this model is exact. -/
def pyIsDigit (c : Char) : Bool :=
  (48 ≤ c.toNat && c.toNat ≤ 57) ||
  c.toNat == 0xB2 || c.toNat == 0xB3 || c.toNat == 0xB9 ||
  (0x660 ≤ c.toNat && c.toNat ≤ 0x669) ||
  (0x6F0 ≤ c.toNat && c.toNat ≤ 0x6F9) ||
  (0x966 ≤ c.toNat && c.toNat ≤ 0x96F) ||
  (0xFF10 ≤ c.toNat && c.toNat ≤ 0xFF19)

/-- Python `str.isdigit`: nonempty and every character a digit. -/
def pyStrIsDigit (s : String) : Bool :=
  !s.data.isEmpty && s.data.all pyIsDigit

/-- Python `v.replace(",", "")`. -/
def removeCommas (s : String) : String :=
  ⟨s.data.filter (fun c => !(c = ','))⟩

/-- The `check_numeric` validator on `income` and `savings`
(`server.py` 62–66): `v.replace(",", "").isdigit()`. -/
def check_numeric (v : String) : Bool :=
  pyStrIsDigit (removeCommas v)

/-- The `check_numeric_optional` validator on `credit_score`, `lump_sum`
and `monthly_contribution` (`server.py` 68–74): `None` or `""` normalises
to `None`; otherwise `v.replace(",", "").isdigit()` must hold or the value
is rejected (`none` result = `ValueError` raised). -/
def check_numeric_optional (v : Option String) : Option (Option String) :=
  match v with
  | none => some none
  | some s =>
      if s = "" then some none
      else if pyStrIsDigit (removeCommas s) then some (some s) else none

/-- A raw lead submission: each of the eight fields of the pydantic model
either present with a string value or absent/null. -/
structure RawLead where
  name : Option String
  income : Option String
  savings : Option String
  credit_score : Option String
  dob : Option String
  lump_sum : Option String
  monthly_contribution : Option String
  goals : Option String

/-- A validated `Lead` (pydantic model instance): required fields are
strings, optional numeric fields are `None` or a nonempty numeric string,
`dob` is unconstrained. -/
structure Lead where
  name : String
  income : String
  savings : String
  credit_score : Option String
  dob : Option String
  lump_sum : Option String
  monthly_contribution : Option String
  goals : String

/-- Pydantic validation of a `Lead` submission: the four required fields
must be present, `check_numeric` must accept `income` and `savings`, and
`check_numeric_optional` must accept the three optional numeric fields
(normalising empty to absent).  `none` models a `ValidationError`. -/
def validateLead (r : RawLead) : Option Lead :=
  match r.name, r.income, r.savings, r.goals with
  | some nm, some inc, some sav, some gl =>
      if check_numeric inc && check_numeric sav then
        match check_numeric_optional r.credit_score,
              check_numeric_optional r.lump_sum,
              check_numeric_optional r.monthly_contribution with
        | some cs, some ls, some mc =>
            some ⟨nm, inc, sav, cs, r.dob, ls, mc, gl⟩
        | _, _, _ => none
      else none
  | _, _, _, _ => none

/-- Stated from the spec's words, for comparison with the code's validator:
a numeric field matches the regular expression `[0-9,]+` anchored at both
ends, i.e. is nonempty and contains only ASCII digits and commas. -/
def matchesNumericRegex (s : String) : Bool :=
  !s.data.isEmpty && s.data.all (fun c => c.isDigit || c = ',')

/-- Stated from the spec's words: a required numeric field is present and,
after removing thousands separators, matches `[0-9,]+`. -/
def specReqNumericOk (v : Option String) : Bool :=
  match v with
  | none => false
  | some s => matchesNumericRegex (removeCommas s)

/-- Stated from the spec's words: an optional numeric field is absent or
empty (treated as not present), or matches the pattern after removing
thousands separators. -/
def specOptNumericOk (v : Option String) : Bool :=
  match v with
  | none => true
  | some s => s = "" || matchesNumericRegex (removeCommas s)

/-- Stated from the spec's words (claim C1): the validator accepts iff every
required field is present and every present numeric field, after removing
thousands separators, matches `[0-9,]+`. -/
def specAccepts (r : RawLead) : Bool :=
  r.name.isSome && specReqNumericOk r.income && specReqNumericOk r.savings &&
  r.goals.isSome && specOptNumericOk r.credit_score &&
  specOptNumericOk r.lump_sum && specOptNumericOk r.monthly_contribution

/-- The amended C1 condition, written against Python's `str.isdigit` (the
check the source actually performs) instead of the ASCII regex. -/
def pyReqNumericOk (v : Option String) : Bool :=
  match v with
  | none => false
  | some s => pyStrIsDigit (removeCommas s)

/-- The amended C1 condition for an optional numeric field. -/
def pyOptNumericOk (v : Option String) : Bool :=
  match v with
  | none => true
  | some s => s = "" || pyStrIsDigit (removeCommas s)

/-- The amended C1 acceptance condition: required fields present, numeric
fields nonempty and all Python digits after removing commas. -/
def pyAccepts (r : RawLead) : Bool :=
  r.name.isSome && pyReqNumericOk r.income && pyReqNumericOk r.savings &&
  r.goals.isSome && pyOptNumericOk r.credit_score &&
  pyOptNumericOk r.lump_sum && pyOptNumericOk r.monthly_contribution

/-- An optional field whose value (when present) is ASCII only. -/
def asciiOpt (v : Option String) : Bool :=
  match v with
  | none => true
  | some s => s.data.all (fun c => c.toNat ≤ 127)

/-- All five numeric fields of the submission are ASCII. -/
def numericFieldsAscii (r : RawLead) : Bool :=
  asciiOpt r.income && asciiOpt r.savings && asciiOpt r.credit_score &&
  asciiOpt r.lump_sum && asciiOpt r.monthly_contribution

/-!  Response extraction (`server.py`, lines 184–205). -/

/-- One entry of `groupchat.messages`: the fields the extraction loop reads
(`message['role']`, `message['name']`, `message.get('content', '')`). -/
structure Msg where
  role : String
  name : String
  content : String

/-- First character test on a character list. -/
def headIs (cs : List Char) (c : Char) : Bool :=
  match cs with
  | c' :: _ => c' = c
  | [] => false

/-- The structural pre-filter of the extraction loop:
`content.strip().startswith("\x7b") and content.strip().endswith("\x7d")`
(stated over the stripped character list; `str.startswith`/`str.endswith`
with a one-character argument test the first/last character). -/
def preFilter (content : String) : Bool :=
  headIs (pyStrip content).data '\x7b' && headIs (pyStrip content).data.reverse '\x7d'

/-- The error sentinel recorded when the pre-filter fails or the decoded
value is falsy. -/
def errMalformed : JsonVal :=
  JsonVal.obj [("error", JsonVal.str "Malformed JSON from AI")]

/-- The error sentinel recorded when the pre-filter passes but strict JSON
decoding raises `JSONDecodeError`. -/
def errInvalid : JsonVal :=
  JsonVal.obj [("error", JsonVal.str "Invalid JSON from AI")]

/-- The body of the extraction loop for one advisor message
(`server.py` 195–205): `parsed_content = json.loads(content) if
<pre-filter> else \x7b\x7d`; a truthy parse result is recorded as-is, a falsy
one (pre-filter failure, or a decoded empty dict) records the malformed
sentinel, and a `JSONDecodeError` records the invalid sentinel. -/
def parseContent (content : String) : JsonVal :=
  if preFilter content then
    match pyJsonLoads content with
    | Except.error _ => errInvalid
    | Except.ok v => if pyTruthy v then v else errMalformed
  else errMalformed

/-- One iteration of the extraction loop (`server.py` 188–205): a message is
processed only when `message['role'] == 'user'` and
`message['name'] != 'User'`; processing assigns
`results[agent_name] = <parsed>`. -/
def extractStep (results : List (String × JsonVal)) (m : Msg) :
    List (String × JsonVal) :=
  if m.role = "user" ∧ m.name ≠ "User" then
    pyDictSet results m.name (parseContent m.content)
  else results

/-- The whole extraction loop over `groupchat.messages`, starting from the
empty `results` dict. -/
def extractResults (ts : List Msg) : List (String × JsonVal) :=
  ts.foldl extractStep []

/-- The messages of the sequence that the loop processes for agent `n`:
role `user`, name equal to `n`. -/
def turnsOf (ts : List Msg) (n : String) : List Msg :=
  ts.filter (fun m => m.role = "user" ∧ m.name = n)

/-!  Result assembly (`server.py`, lines 208–215). -/

/-- Fallback for `LeadQualificationAgent`. -/
def qualificationPlaceholder : JsonVal :=
  JsonVal.obj [("priority", JsonVal.str "N/A"), ("reasoning", JsonVal.str "N/A")]

/-- Fallback for `FinancialStrategyAgent`. -/
def financialStrategyPlaceholder : JsonVal :=
  JsonVal.obj [("budget", JsonVal.str "N/A"), ("investment", JsonVal.str "N/A"),
    ("savings", JsonVal.str "N/A")]

/-- Fallback for `PolicyAdvisorAgent`. -/
def policyPlaceholder : JsonVal :=
  JsonVal.obj [("policy_type", JsonVal.str "N/A"), ("reasoning", JsonVal.str "N/A")]

/-- Fallback for `AntiIULAgent`. -/
def antiIulPlaceholder : JsonVal :=
  JsonVal.obj [("critique", JsonVal.str "N/A")]

/-- Fallback for `RiskAssessmentAgent`. -/
def riskAssessmentPlaceholder : JsonVal :=
  JsonVal.obj [("risk_tolerance", JsonVal.str "N/A"), ("reasoning", JsonVal.str "N/A")]

/-- Fallback for `FollowupAgent`. -/
def followupPlaceholder : JsonVal :=
  JsonVal.obj [("subject", JsonVal.str "N/A"), ("body", JsonVal.str "N/A")]

/-- The `ai_analysis` dict literal (`server.py` 208–215): six fixed keys,
each `results.get(<agent>, <placeholder>)`. -/
def assembleAnalysis (results : List (String × JsonVal)) :
    List (String × JsonVal) :=
  [("qualification",
      (pyDictGet results "LeadQualificationAgent").getD qualificationPlaceholder),
   ("financial_strategy",
      (pyDictGet results "FinancialStrategyAgent").getD financialStrategyPlaceholder),
   ("policy",
      (pyDictGet results "PolicyAdvisorAgent").getD policyPlaceholder),
   ("anti_iul_critique",
      (pyDictGet results "AntiIULAgent").getD antiIulPlaceholder),
   ("risk_assessment",
      (pyDictGet results "RiskAssessmentAgent").getD riskAssessmentPlaceholder),
   ("followup",
      (pyDictGet results "FollowupAgent").getD followupPlaceholder)]

/-!  Ledger append, success response and the outermost exception handler
(`server.py`, lines 219–239). -/

/-- Python `x if x else "N/A"` on an optional string field: `None` and the
empty string are falsy and give `"N/A"`. -/
def orNA (v : Option String) : String :=
  match v with
  | none => "N/A"
  | some s => if s = "" then "N/A" else s

/-- The row passed to `sheet.append_row` (`server.py` 219–229). -/
def ledgerRow (lead : Lead) (analysis : List (String × JsonVal)) : List String :=
  [lead.name, lead.income, lead.savings, orNA lead.credit_score, orNA lead.dob,
   orNA lead.lump_sum, orNA lead.monthly_contribution, lead.goals,
   pyJsonDumps analysis]

/-- The dict returned by `process_lead_pipeline`: `ai_analysis` is present
only on the success path. -/
structure Response where
  status : String
  message : String
  ai_analysis : Option String

/-- The observable outcome of one pipeline run that reaches assembly: the
rows appended to the sheet and the returned response. -/
structure PipelineOutcome where
  appendedRows : List (List String)
  response : Response

/-- The pipeline from extraction to response (`server.py` 184–232) for a
validated lead and a fixed collected turn sequence: extract, assemble,
append exactly one ledger row, and return the success response carrying
`json.dumps(ai_analysis)`. -/
def runPipeline (lead : Lead) (ts : List Msg) : PipelineOutcome :=
  let analysis := assembleAnalysis (extractResults ts)
  ⟨[ledgerRow lead analysis],
   ⟨"success", "Lead processed successfully!", some (pyJsonDumps analysis)⟩⟩

/-- A fault reaching the `except` clauses at the bottom of
`process_lead_pipeline`: either a FastAPI `HTTPException` (with its
`detail`), or any other exception together with its text and formatted
traceback. -/
inductive PyFault where
  | httpException : String → PyFault
  | unexpected : String → String → PyFault

/-- The outermost exception handler (`server.py` 234–239): an
`HTTPException`'s detail is echoed; any other exception is logged and the
caller receives only the fixed generic message. -/
def handlePipelineFault (e : PyFault) : Response :=
  match e with
  | PyFault.httpException detail => ⟨"error", detail, none⟩
  | PyFault.unexpected _ _ => ⟨"error", "Internal Server Error.", none⟩

/-!  Supporting lemmas. -/

set_option maxRecDepth 8192

theorem pyDictGet_set_self (d : List (String × JsonVal)) (k : String) (v : JsonVal) :
    pyDictGet (pyDictSet d k v) k = some v := by
  induction d with
  | nil => simp [pyDictSet, pyDictGet]
  | cons p rest ih =>
      by_cases h : k = p.1
      · simp [pyDictSet, pyDictGet, h]
      · simp [pyDictSet, pyDictGet, h, ih]

theorem pyDictGet_set_ne (d : List (String × JsonVal)) (k k' : String) (v : JsonVal)
    (h : k' ≠ k) : pyDictGet (pyDictSet d k v) k' = pyDictGet d k' := by
  induction d with
  | nil => simp [pyDictSet, pyDictGet, h]
  | cons p rest ih =>
      by_cases h1 : k = p.1
      · subst h1
        simp [pyDictSet, pyDictGet, h]
      · by_cases h2 : k' = p.1
        · simp [pyDictSet, pyDictGet, h1, h2]
        · simp [pyDictSet, pyDictGet, h1, h2, ih]

theorem keyCount_cons (p : String × JsonVal) (d : List (String × JsonVal)) (n : String) :
    keyCount (p :: d) n = (if p.1 = n then 1 else 0) + keyCount d n := by
  by_cases h : p.1 = n <;> simp [keyCount, List.filter, h, Nat.add_comm]

theorem keyCount_set_ne (d : List (String × JsonVal)) (k n : String) (v : JsonVal)
    (h : k ≠ n) : keyCount (pyDictSet d k v) n = keyCount d n := by
  induction d with
  | nil => simp [pyDictSet, keyCount, List.filter, h]
  | cons p rest ih =>
      by_cases h1 : k = p.1
      · subst h1
        simp [pyDictSet, keyCount_cons]
      · simp [pyDictSet, h1, keyCount_cons, ih]

theorem keyCount_set_self (d : List (String × JsonVal)) (n : String) (v : JsonVal) :
    keyCount (pyDictSet d n v) n = max (keyCount d n) 1 := by
  induction d with
  | nil => simp [pyDictSet, keyCount, List.filter]
  | cons p rest ih =>
      by_cases h1 : n = p.1
      · subst h1
        simp [pyDictSet, keyCount_cons]
      · have h1' : p.1 ≠ n := fun h => h1 h.symm
        simp [pyDictSet, h1, keyCount_cons, h1', ih]

theorem keyCount_pos_of_get_some (d : List (String × JsonVal)) (n : String) (v : JsonVal)
    (h : pyDictGet d n = some v) : 1 ≤ keyCount d n := by
  induction d with
  | nil => simp [pyDictGet] at h
  | cons p rest ih =>
      rw [keyCount_cons]
      by_cases h1 : n = p.1
      · simp [h1]
      · rw [pyDictGet] at h
        simp only [h1, if_false] at h
        have h1' : ¬ p.1 = n := fun hh => h1 hh.symm
        simp only [h1', if_false]
        have := ih h
        omega

theorem getLast?_cons_of_some {α : Type} (a x : α) (l : List α)
    (h : l.getLast? = some x) : (a :: l).getLast? = some x := by
  cases l with
  | nil => simp at h
  | cons b l' => rw [List.getLast?_cons_cons]; exact h

theorem extract_lookup (n : String) (hn : n ≠ "User") :
    ∀ (ts : List Msg) (r : List (String × JsonVal)),
      pyDictGet (ts.foldl extractStep r) n =
        ((turnsOf ts n).getLast?).elim (pyDictGet r n)
          (fun m => some (parseContent m.content))
  | [], r => by simp [turnsOf]
  | m :: ts, r => by
      by_cases hp : m.role = "user" ∧ m.name = n
      · have hguard : m.role = "user" ∧ m.name ≠ "User" := ⟨hp.1, hp.2 ▸ hn⟩
        have hstep : extractStep r m = pyDictSet r n (parseContent m.content) := by
          rw [extractStep, if_pos hguard, hp.2]
        have hturns : turnsOf (m :: ts) n = m :: turnsOf ts n := by
          simp only [turnsOf, List.filter_cons]
          rw [if_pos]
          simp [hp.1, hp.2]
        rw [List.foldl_cons, hstep, extract_lookup n hn ts, hturns]
        cases hlast : (turnsOf ts n).getLast? with
        | none =>
            rw [List.getLast?_eq_none_iff.mp hlast]
            simp [pyDictGet_set_self]
        | some m' =>
            rw [getLast?_cons_of_some m m' _ hlast]
            simp
      · have hturns : turnsOf (m :: ts) n = turnsOf ts n := by
          simp only [turnsOf, List.filter_cons]
          rw [if_neg]
          simp only [decide_eq_true_eq]
          exact hp
        have hbase : pyDictGet (extractStep r m) n = pyDictGet r n := by
          by_cases hg : m.role = "user" ∧ m.name ≠ "User"
          · have hne : n ≠ m.name := by
              intro he
              exact hp ⟨hg.1, he.symm⟩
            rw [extractStep, if_pos hg, pyDictGet_set_ne _ _ _ _ hne]
          · rw [extractStep, if_neg hg]
        rw [List.foldl_cons, extract_lookup n hn ts, hturns, hbase]

theorem extract_keyCount_le_one (n : String) :
    ∀ (ts : List Msg) (r : List (String × JsonVal)),
      keyCount r n ≤ 1 → keyCount (ts.foldl extractStep r) n ≤ 1
  | [], r => fun h => h
  | m :: ts, r => fun h => by
      rw [List.foldl_cons]
      refine extract_keyCount_le_one n ts _ ?_
      rw [extractStep]
      split
      · by_cases hk : m.name = n
        · subst hk
          rw [keyCount_set_self]
          omega
        · rw [keyCount_set_ne _ _ _ _ hk]
          exact h
      · exact h

theorem extract_ignores_user :
    ∀ (ts : List Msg) (r : List (String × JsonVal)),
      ts.foldl extractStep r =
        (ts.filter (fun m => m.name ≠ "User")).foldl extractStep r
  | [], _ => rfl
  | m :: ts, r => by
      by_cases h : m.name = "User"
      · have hstep : extractStep r m = r := by
          rw [extractStep, if_neg]
          intro hc
          exact hc.2 h
        rw [List.foldl_cons, hstep, List.filter_cons, if_neg (by simp [h])]
        exact extract_ignores_user ts r
      · rw [List.foldl_cons, List.filter_cons, if_pos (by simp [h]), List.foldl_cons]
        exact extract_ignores_user ts (extractStep r m)

theorem pyTruthy_obj (kvs : List (String × JsonVal)) (h : kvs ≠ []) :
    pyTruthy (JsonVal.obj kvs) = true := by
  simp [pyTruthy, h]

theorem check_numeric_optional_isSome (v : Option String) :
    (check_numeric_optional v).isSome = pyOptNumericOk v := by
  cases v with
  | none => rfl
  | some s =>
      by_cases h1 : s = ""
      · simp [check_numeric_optional, pyOptNumericOk, h1]
      · by_cases h2 : pyStrIsDigit (removeCommas s)
        · simp [check_numeric_optional, pyOptNumericOk, h1, h2]
        · simp [check_numeric_optional, pyOptNumericOk, h1, h2]

theorem validateLead_isSome (r : RawLead) :
    (validateLead r).isSome = pyAccepts r := by
  obtain ⟨nm, inc, sav, cs, dob, ls, mc, gl⟩ := r
  cases nm <;> cases inc <;> cases sav <;> cases gl <;>
    simp only [validateLead, pyAccepts, pyReqNumericOk, Option.isSome_none,
      Option.isSome_some, Bool.false_and, Bool.and_false, Bool.true_and,
      Bool.and_true]
  case some.some.some.some nm' inc' sav' gl' =>
    by_cases hnum : check_numeric inc' && check_numeric sav'
    · rw [if_pos hnum]
      have hi : check_numeric inc' = true := (Bool.and_eq_true .. ▸ hnum).1
      have hs : check_numeric sav' = true := (Bool.and_eq_true .. ▸ hnum).2
      rw [check_numeric] at hi hs
      rw [hi, hs]
      cases h1 : check_numeric_optional cs <;> cases h2 : check_numeric_optional ls <;>
        cases h3 : check_numeric_optional mc <;>
        simp only [Option.isSome_none, Option.isSome_some, Bool.true_and] <;>
        rw [← check_numeric_optional_isSome cs, ← check_numeric_optional_isSome ls,
          ← check_numeric_optional_isSome mc, h1, h2, h3] <;> rfl
    · rw [if_neg hnum]
      have : (check_numeric inc' && check_numeric sav') = false := by
        exact Bool.not_eq_true _ ▸ (by simpa using hnum)
      rcases Bool.and_eq_false_iff.mp this with h | h <;>
        rw [check_numeric] at h <;> simp [h]

theorem char_isDigit_iff (c : Char) : c.isDigit = true ↔ 48 ≤ c.toNat ∧ c.toNat ≤ 57 := by
  simp [Char.isDigit, Char.toNat]
  exact Iff.rfl

theorem pyIsDigit_ascii (c : Char) (h : c.toNat ≤ 127) : pyIsDigit c = c.isDigit := by
  rw [Bool.eq_iff_iff, char_isDigit_iff]
  simp only [pyIsDigit, Bool.or_eq_true, Bool.and_eq_true, decide_eq_true_eq, beq_iff_eq]
  omega

theorem pyStrIsDigit_ascii (s : String) (h : ∀ c ∈ s.data, c.toNat ≤ 127) :
    pyStrIsDigit (removeCommas s) = matchesNumericRegex (removeCommas s) := by
  simp only [pyStrIsDigit, matchesNumericRegex]
  congr 1
  rw [Bool.eq_iff_iff]
  simp only [List.all_eq_true, removeCommas, List.mem_filter, Bool.not_eq_true',
    decide_eq_false_iff_not]
  constructor
  · intro hall c hc
    have hd := hall c hc
    rw [pyIsDigit_ascii c (h c hc.1)] at hd
    simp [hd]
  · intro hall c hc
    have hd := hall c hc
    rcases Bool.or_eq_true _ _ |>.mp hd with hd1 | hd2
    · rw [pyIsDigit_ascii c (h c hc.1)]
      exact hd1
    · exact absurd (by simpa using hd2) hc.2

theorem specOpt_eq_pyOpt_of_ascii (v : Option String) (h : asciiOpt v = true) :
    specOptNumericOk v = pyOptNumericOk v := by
  cases v with
  | none => rfl
  | some s =>
      simp only [asciiOpt, List.all_eq_true, decide_eq_true_eq] at h
      simp only [specOptNumericOk, pyOptNumericOk, pyStrIsDigit_ascii s h]

theorem specReq_eq_pyReq_of_ascii (v : Option String) (h : asciiOpt v = true) :
    specReqNumericOk v = pyReqNumericOk v := by
  cases v with
  | none => rfl
  | some s =>
      simp only [asciiOpt, List.all_eq_true, decide_eq_true_eq] at h
      simp only [specReqNumericOk, pyReqNumericOk, pyStrIsDigit_ascii s h]

theorem specAccepts_eq_pyAccepts_of_ascii (r : RawLead) (h : numericFieldsAscii r = true) :
    specAccepts r = pyAccepts r := by
  simp only [numericFieldsAscii, Bool.and_eq_true] at h
  obtain ⟨⟨⟨⟨h1, h2⟩, h3⟩, h4⟩, h5⟩ := h
  simp only [specAccepts, pyAccepts, specReq_eq_pyReq_of_ascii _ h1,
    specReq_eq_pyReq_of_ascii _ h2, specOpt_eq_pyOpt_of_ascii _ h3,
    specOpt_eq_pyOpt_of_ascii _ h4, specOpt_eq_pyOpt_of_ascii _ h5]

/-!  Claim theorems. -/

/-- C1 (counterexample): the validator does not accept exactly the inputs
whose numeric fields match `[0-9,]+`.  The submission with
`income = "٢"` (ARABIC-INDIC DIGIT TWO) is accepted by the code, because
Python's `str.isdigit` accepts non-ASCII Unicode digits, yet its income does
not match the ASCII pattern `[0-9,]+` the claim states. -/
theorem c1_counterexample :
    (validateLead ⟨some "Alice", some "٢", some "1", none, none, none, none,
        some "growth"⟩).isSome = true ∧
    specAccepts ⟨some "Alice", some "٢", some "1", none, none, none, none,
        some "growth"⟩ = false :=
  ⟨rfl, rfl⟩

/-- C1 (amended): the validator accepts iff every required field (name,
income, savings, goals) is present and every present numeric field, after
removing thousands separators, is nonempty and consists only of characters
Python's `str.isdigit` classifies as digits (an empty or absent optional
numeric field is treated as not present); on submissions whose numeric
fields are ASCII, this coincides with the spec's `[0-9,]+` rule. -/
theorem c1_validator_accepts_iff (r : RawLead) :
    ((validateLead r).isSome = pyAccepts r) ∧
    (numericFieldsAscii r = true → (validateLead r).isSome = specAccepts r) :=
  ⟨validateLead_isSome r, fun h =>
    (validateLead_isSome r).trans (specAccepts_eq_pyAccepts_of_ascii r h).symm⟩

/-- C1 (witness): on an all-ASCII submission with `income = "50,000"`,
`credit_score = ""` and the other optional numeric fields absent, the
validator's verdict agrees with the spec's `[0-9,]+` rule, and the
submission is accepted. -/
theorem c1_witness :
    numericFieldsAscii ⟨some "Bob", some "50,000", some "7,500", some "",
        none, some "1000", none, some "retire"⟩ = true ∧
    (validateLead ⟨some "Bob", some "50,000", some "7,500", some "",
        none, some "1000", none, some "retire"⟩).isSome =
      specAccepts ⟨some "Bob", some "50,000", some "7,500", some "",
        none, some "1000", none, some "retire"⟩ ∧
    specAccepts ⟨some "Bob", some "50,000", some "7,500", some "",
        none, some "1000", none, some "retire"⟩ = true :=
  ⟨rfl,
   (c1_validator_accepts_iff ⟨some "Bob", some "50,000", some "7,500", some "",
      none, some "1000", none, some "retire"⟩).2 rfl,
   rfl⟩

/-- C2 (counterexample): an advisor turn with `raw_text = "\x7bbad"` is
recorded as `\x7berror: "Malformed JSON from AI"\x7d`, not as
`\x7berror: "Invalid JSON from AI"\x7d` as the claim states: `"\x7bbad"`
does not end with `"\x7d"`, so it fails the structural pre-filter and never
reaches the JSON decoder. -/
theorem c2_counterexample :
    extractResults [⟨"user", "LeadQualificationAgent", "\x7bbad"⟩] =
      [("LeadQualificationAgent", errMalformed)] ∧
    errMalformed ≠ errInvalid :=
  ⟨rfl, by simp [errMalformed, errInvalid]⟩

/-- C2 (amended): for an advisor-authored turn, `raw_text = "not json"`
records the sentinel `\x7berror: "Malformed JSON from AI"\x7d`; so does
`raw_text = "\x7bbad"`, which fails the pre-filter because it does not end
with `"\x7d"`; a text passing the pre-filter but failing strict decoding,
such as `"\x7bbad\x7d"`, records `\x7berror: "Invalid JSON from AI"\x7d`;
and the well-formed priority JSON records exactly its decoded mapping. -/
theorem c2_extractor_examples :
    extractResults [⟨"user", "LeadQualificationAgent", "not json"⟩] =
      [("LeadQualificationAgent", errMalformed)] ∧
    extractResults [⟨"user", "LeadQualificationAgent", "\x7bbad"⟩] =
      [("LeadQualificationAgent", errMalformed)] ∧
    extractResults [⟨"user", "LeadQualificationAgent", "\x7bbad\x7d"⟩] =
      [("LeadQualificationAgent", errInvalid)] ∧
    extractResults
        [⟨"user", "LeadQualificationAgent",
          "\x7b\"priority\":\"high\",\"reasoning\":\"x\"\x7d"⟩] =
      [("LeadQualificationAgent",
        JsonVal.obj [("priority", JsonVal.str "high"),
          ("reasoning", JsonVal.str "x")])] :=
  ⟨rfl, rfl, rfl, rfl⟩

/-- C3 (counterexample): a turn whose `raw_text = "\x7b\x7d"` passes the
pre-filter and decodes successfully to the empty mapping, yet the empty
mapping does not become the role's ParsedAdvice: the decoded empty dict is
falsy in Python, so the code records the malformed-JSON sentinel instead. -/
theorem c3_counterexample :
    preFilter "\x7b\x7d" = true ∧
    pyJsonLoads "\x7b\x7d" = Except.ok (JsonVal.obj []) ∧
    extractResults [⟨"user", "PolicyAdvisorAgent", "\x7b\x7d"⟩] =
      [("PolicyAdvisorAgent", errMalformed)] ∧
    errMalformed ≠ JsonVal.obj [] :=
  ⟨rfl, rfl, rfl, by simp [errMalformed]⟩

/-- C3 (amended): for every advisor-authored turn whose raw_text passes the
pre-filter (after stripping, begins with `\x7b` and ends with `\x7d`) and
decodes under strict JSON parsing to a NON-EMPTY mapping, the decoded
mapping itself — with extra, missing, or mistyped fields accepted as-is —
becomes that role's ParsedAdvice and no error sentinel is recorded; a
decoded EMPTY mapping is instead recorded as the malformed-JSON sentinel. -/
theorem c3_decoded_mapping (name content : String) (kvs : List (String × JsonVal))
    (hname : name ≠ "User") (hpre : preFilter content = true)
    (hdec : pyJsonLoads content = Except.ok (JsonVal.obj kvs)) (hne : kvs ≠ []) :
    parseContent content = JsonVal.obj kvs ∧
    extractResults [⟨"user", name, content⟩] = [(name, JsonVal.obj kvs)] := by
  have hparse : parseContent content = JsonVal.obj kvs := by
    rw [parseContent, if_pos hpre, hdec]
    simp only [pyTruthy_obj kvs hne, if_true]
  refine ⟨hparse, ?_⟩
  show extractStep [] ⟨"user", name, content⟩ = [(name, JsonVal.obj kvs)]
  rw [extractStep, if_pos ⟨rfl, hname⟩]
  simp [pyDictSet, hparse]

/-- C3 (witness): the turn `\x7b"extra": "field"\x7d` from the risk role
passes the pre-filter, decodes to a nonempty mapping not matching the
role's declared shape, and that mapping becomes the role's ParsedAdvice. -/
theorem c3_witness :
    preFilter "\x7b\"extra\": \"field\"\x7d" = true ∧
    pyJsonLoads "\x7b\"extra\": \"field\"\x7d" =
      Except.ok (JsonVal.obj [("extra", JsonVal.str "field")]) ∧
    extractResults [⟨"user", "RiskAssessmentAgent", "\x7b\"extra\": \"field\"\x7d"⟩] =
      [("RiskAssessmentAgent", JsonVal.obj [("extra", JsonVal.str "field")])] :=
  ⟨rfl, rfl,
   (c3_decoded_mapping "RiskAssessmentAgent" "\x7b\"extra\": \"field\"\x7d"
      [("extra", JsonVal.str "field")] (by simp) rfl rfl (by simp)).2⟩

/-- C4: for every turn sequence, including the empty one, the assembled
CompositeResult has exactly the six fixed role keys in the fixed order
qualification, financial_strategy, policy, anti_iul_critique,
risk_assessment, followup — never a key missing or extra — and each key
holds the role's ParsedAdvice when extraction produced one and otherwise
that role's declared all-"N/A" placeholder; with zero advisor turns all six
keys hold their placeholders. -/
theorem c4_composite_totality (ts : List Msg) :
    (assembleAnalysis (extractResults ts)).map Prod.fst =
      ["qualification", "financial_strategy", "policy", "anti_iul_critique",
       "risk_assessment", "followup"] ∧
    pyDictGet (assembleAnalysis (extractResults ts)) "qualification" =
      some ((pyDictGet (extractResults ts) "LeadQualificationAgent").getD
        qualificationPlaceholder) ∧
    pyDictGet (assembleAnalysis (extractResults ts)) "financial_strategy" =
      some ((pyDictGet (extractResults ts) "FinancialStrategyAgent").getD
        financialStrategyPlaceholder) ∧
    pyDictGet (assembleAnalysis (extractResults ts)) "policy" =
      some ((pyDictGet (extractResults ts) "PolicyAdvisorAgent").getD
        policyPlaceholder) ∧
    pyDictGet (assembleAnalysis (extractResults ts)) "anti_iul_critique" =
      some ((pyDictGet (extractResults ts) "AntiIULAgent").getD
        antiIulPlaceholder) ∧
    pyDictGet (assembleAnalysis (extractResults ts)) "risk_assessment" =
      some ((pyDictGet (extractResults ts) "RiskAssessmentAgent").getD
        riskAssessmentPlaceholder) ∧
    pyDictGet (assembleAnalysis (extractResults ts)) "followup" =
      some ((pyDictGet (extractResults ts) "FollowupAgent").getD
        followupPlaceholder) ∧
    assembleAnalysis (extractResults []) =
      [("qualification", qualificationPlaceholder),
       ("financial_strategy", financialStrategyPlaceholder),
       ("policy", policyPlaceholder),
       ("anti_iul_critique", antiIulPlaceholder),
       ("risk_assessment", riskAssessmentPlaceholder),
       ("followup", followupPlaceholder)] :=
  ⟨rfl, rfl, rfl, rfl, rfl, rfl, rfl, rfl⟩

/-- C5: a turn originating from the driving participant — identified by the
participant name `User`, never by content — is skipped by the extraction
loop and contributes no ParsedAdvice: extraction of any turn sequence
equals extraction of the sequence with all `User`-named turns removed, even
when their content is a syntactically valid JSON object. -/
theorem c5_relay_turns_skipped (ts : List Msg) :
    extractResults ts =
      extractResults (ts.filter (fun m => m.name ≠ "User")) :=
  extract_ignores_user ts []

/-- C6: every run that reaches assembly appends exactly one ledger row,
whose columns are, in order: name, income, savings, credit_score, dob,
lump_sum, monthly_contribution, goals, then the CompositeResult serialized
as one JSON-text column; an absent optional field is replaced by the
literal string "N/A". -/
theorem c6_ledger_row (lead : Lead) (ts : List Msg) :
    (runPipeline lead ts).appendedRows.length = 1 ∧
    (runPipeline lead ts).appendedRows =
      [[lead.name, lead.income, lead.savings, orNA lead.credit_score,
        orNA lead.dob, orNA lead.lump_sum, orNA lead.monthly_contribution,
        lead.goals,
        pyJsonDumps (assembleAnalysis (extractResults ts))]] ∧
    orNA none = "N/A" :=
  ⟨rfl, rfl, rfl⟩

/-- C7: when a turn sequence contains two or more advisor-authored turns
from the same role, the extraction result holds exactly one ParsedAdvice
for that role, and it is the one derived from the last such turn in
sequence order (last-write-wins). -/
theorem c7_last_write_wins (ts : List Msg) (n : String) (m : Msg)
    (hn : n ≠ "User") (_h2 : 2 ≤ (turnsOf ts n).length)
    (hl : (turnsOf ts n).getLast? = some m) :
    pyDictGet (extractResults ts) n = some (parseContent m.content) ∧
    keyCount (extractResults ts) n = 1 := by
  have hget : pyDictGet (extractResults ts) n = some (parseContent m.content) := by
    have h := extract_lookup n hn ts []
    rw [hl] at h
    exact h
  refine ⟨hget, ?_⟩
  have hle : keyCount (extractResults ts) n ≤ 1 :=
    extract_keyCount_le_one n ts [] (by simp [keyCount])
  have hpos : 1 ≤ keyCount (extractResults ts) n :=
    keyCount_pos_of_get_some _ _ _ hget
  omega

/-- C7 (witness): with two FollowupAgent turns in sequence, the one
ParsedAdvice for the role is the parse of the second turn's content. -/
theorem c7_witness :
    2 ≤ (turnsOf [⟨"user", "FollowupAgent", "first"⟩,
          ⟨"user", "FollowupAgent", "\x7b\"subject\":\"s\",\"body\":\"b\"\x7d"⟩]
          "FollowupAgent").length ∧
    pyDictGet (extractResults [⟨"user", "FollowupAgent", "first"⟩,
        ⟨"user", "FollowupAgent", "\x7b\"subject\":\"s\",\"body\":\"b\"\x7d"⟩])
        "FollowupAgent" =
      some (parseContent "\x7b\"subject\":\"s\",\"body\":\"b\"\x7d") ∧
    keyCount (extractResults [⟨"user", "FollowupAgent", "first"⟩,
        ⟨"user", "FollowupAgent", "\x7b\"subject\":\"s\",\"body\":\"b\"\x7d"⟩])
        "FollowupAgent" = 1 := by
  refine ⟨by decide, ?_⟩
  have h := c7_last_write_wins
    [⟨"user", "FollowupAgent", "first"⟩,
     ⟨"user", "FollowupAgent", "\x7b\"subject\":\"s\",\"body\":\"b\"\x7d"⟩]
    "FollowupAgent"
    ⟨"user", "FollowupAgent", "\x7b\"subject\":\"s\",\"body\":\"b\"\x7d"⟩
    (by simp) (by decide) rfl
  exact h

/-- C8: extraction followed by assembly is a deterministic pure function of
the turn sequence: any two runs over equal sequences yield the same
CompositeResult and the same serialized JSON text, with no hidden state. -/
theorem c8_deterministic (ts1 ts2 : List Msg) (h : ts1 = ts2) :
    assembleAnalysis (extractResults ts1) = assembleAnalysis (extractResults ts2) ∧
    pyJsonDumps (assembleAnalysis (extractResults ts1)) =
      pyJsonDumps (assembleAnalysis (extractResults ts2)) := by
  subst h
  exact ⟨rfl, rfl⟩

/-- C8 (witness): re-running extraction and assembly over the same concrete
one-turn sequence gives byte-identical serialized output. -/
theorem c8_witness :
    pyJsonDumps (assembleAnalysis (extractResults
        [⟨"user", "AntiIULAgent", "\x7b\"critique\":\"c\"\x7d"⟩])) =
      pyJsonDumps (assembleAnalysis (extractResults
        [⟨"user", "AntiIULAgent", "\x7b\"critique\":\"c\"\x7d"⟩])) :=
  (c8_deterministic [⟨"user", "AntiIULAgent", "\x7b\"critique\":\"c\"\x7d"⟩]
    [⟨"user", "AntiIULAgent", "\x7b\"critique\":\"c\"\x7d"⟩] rfl).2

/-- C9: an unexpected fault caught by the outermost handler — whatever the
exception's text and traceback — produces the error-status response whose
message is the fixed generic string "Internal Server Error.", carrying no
detail of the underlying exception and no `ai_analysis` field. -/
theorem c9_generic_failure (text tb : String) :
    handlePipelineFault (PyFault.unexpected text tb) =
      ⟨"error", "Internal Server Error.", none⟩ :=
  rfl

/-- C10: on every successful run, the `ai_analysis` field of the response is
character-for-character the JSON-text column appended to the ledger row of
the same run: both are the serialization of the same CompositeResult. -/
theorem c10_response_matches_ledger (lead : Lead) (ts : List Msg) :
    (runPipeline lead ts).response.ai_analysis =
      ((runPipeline lead ts).appendedRows.headD [])[8]? ∧
    (runPipeline lead ts).response.ai_analysis =
      some (pyJsonDumps (assembleAnalysis (extractResults ts))) :=
  ⟨rfl, rfl⟩
